import Mathlib

/-!
Verification of the Servionics video quality gate.

This file is a shallow embedding of the quality-scoring core of the
Servionics backend: the per-frame image analyzer (`imageAnalyzer`), the
phase-1 ingest scorers (`Phase1Ingest`), the Gaussian-splatting
suitability checks (`SplattingAnalyzer`), and the orchestrator's quality
gate (`ServionicsOrchestrator.processProject`). JavaScript numbers are
modelled as rationals, `Math.round` as `jsRound`, and fallible external
calls (image decode) as `Except` values. File-system and `sharp`
resampling primitives sit at the collaborator boundary: functions that
read resampled rasters in the source receive the raster as an argument
here.
-/

namespace Servionics

/-- JavaScript `Math.round`: round half toward positive infinity. -/
def jsRound (q : ℚ) : ℤ := ⌊q + 1/2⌋

/-- Configured `config.qualityGate.minBrightness` (nvidia.config). -/
def minBrightness : ℚ := 40

/-- Configured `config.qualityGate.minFrameCount` (nvidia.config). -/
def minFrameCount : ℚ := 30

/-- Configured `config.qualityGate.qualityThreshold` (nvidia.config). -/
def qualityThreshold : ℚ := 70

/-- Per-keyframe metric record as pushed by phase-1 keyframe extraction
(the fields the downstream scorers read). -/
structure Keyframe where
  brightness : ℚ
  sharpness : ℚ
deriving DecidableEq

/-- The mean of one metric over a keyframe list (the `reduce` averages in
the phase-1 scorers). -/
def metricMean (f : Keyframe → ℚ) (keyframes : List Keyframe) : ℚ :=
  (keyframes.map f).sum / keyframes.length

/-- `Phase1Ingest.analyzeBrightness`: tiered score on the mean keyframe
brightness against the configured minimum brightness. -/
def analyzeBrightness (keyframes : List Keyframe) : ℚ :=
  if keyframes.length = 0 then 0
  else if metricMean (·.brightness) keyframes ≥ 100 then 100
  else if metricMean (·.brightness) keyframes ≥ 80 then 85
  else if metricMean (·.brightness) keyframes ≥ minBrightness then 70
  else if metricMean (·.brightness) keyframes ≥ minBrightness * (1/2) then 40
  else 20

/-- `Phase1Ingest.analyzeMotionBlur`: tiered score on the mean keyframe
sharpness. -/
def analyzeMotionBlur (keyframes : List Keyframe) : ℚ :=
  if keyframes.length = 0 then 0
  else if metricMean (·.sharpness) keyframes ≥ 100 then 100
  else if metricMean (·.sharpness) keyframes ≥ 80 then 85
  else if metricMean (·.sharpness) keyframes ≥ 60 then 70
  else if metricMean (·.sharpness) keyframes ≥ 40 then 50
  else 30

/-- `Phase1Ingest.analyzeFrameCount`: tiered score on the metadata frame
count against the configured minimum and the ideal constant 150. -/
def analyzeFrameCount (frameCount : ℚ) : ℚ :=
  if frameCount ≥ 150 then 100
  else if frameCount ≥ minFrameCount * 2 then 85
  else if frameCount ≥ minFrameCount then 70
  else if frameCount ≥ minFrameCount * (1/2) then 40
  else 20

/-- The average absolute brightness delta between consecutive keyframes
computed by `Phase1Ingest.analyzeConsistency`. -/
def consistencyAvgVariation (keyframes : List Keyframe) : ℚ :=
  ((keyframes.zip keyframes.tail).map fun p => |p.2.brightness - p.1.brightness|).sum
    / ((keyframes.length : ℚ) - 1)

/-- `Phase1Ingest.analyzeConsistency`: tiered score on the average
absolute brightness delta; fewer than 2 frames scores 0. -/
def analyzeConsistency (keyframes : List Keyframe) : ℚ :=
  if keyframes.length < 2 then 0
  else if consistencyAvgVariation keyframes < 10 then 100
  else if consistencyAvgVariation keyframes < 20 then 85
  else if consistencyAvgVariation keyframes < 30 then 70
  else if consistencyAvgVariation keyframes < 50 then 50
  else 30

/-- Weight of the brightness sub-score in the basic score. -/
def wBrightness : ℚ := 25/100

/-- Weight of the blur sub-score in the basic score. -/
def wBlur : ℚ := 30/100

/-- Weight of the frame-count sub-score in the basic score. -/
def wFrames : ℚ := 25/100

/-- Weight of the consistency sub-score in the basic score. -/
def wConsistency : ℚ := 20/100

/-- The rounded weighted combination of the four basic sub-scores computed
in `Phase1Ingest.analyze`. -/
def basicFromSubscores (b bl f c : ℚ) : ℤ :=
  jsRound (b * wBrightness + bl * wBlur + f * wFrames + c * wConsistency)

/-- Phase-1 basic quality score: the weighted combination of the four
analyzers applied to the keyframes and metadata frame count. -/
def basicScore (keyframes : List Keyframe) (frameCount : ℚ) : ℤ :=
  basicFromSubscores (analyzeBrightness keyframes) (analyzeMotionBlur keyframes)
    (analyzeFrameCount frameCount) (analyzeConsistency keyframes)

/-- Weight of the basic score in the overall blend. -/
def wBasic : ℚ := 6/10

/-- Weight of the splatting suitability score in the overall blend. -/
def wSplat : ℚ := 4/10

/-- Combined overall score of `Phase1Ingest.analyze`: 60% basic quality,
40% splatting suitability, rounded. -/
def overallScore (basic splatting : ℚ) : ℤ :=
  jsRound (basic * wBasic + splatting * wSplat)

/-- Outcome of the orchestrator's quality gate. -/
inductive GateDecision where
  | failFast
  | proceed
deriving DecidableEq

/-- The quality gate in `ServionicsOrchestrator.processProject`: fail fast
when the phase-1 score is below the configured threshold, otherwise invoke
the downstream reconstruction phase (phase 2). -/
def processDecision (score : ℚ) : GateDecision :=
  if score < qualityThreshold then .failFast else .proceed

/-- A decoded grayscale raster: width, height, and the row-major pixel
buffer (intensities 0–255) as handed over by the decode/resample
collaborator. -/
structure Frame where
  width : ℕ
  height : ℕ
  data : List ℕ
deriving DecidableEq

/-- A constant (flat-color) raster frame. -/
def constFrame (w h v : ℕ) : Frame := ⟨w, h, List.replicate (w * h) v⟩

/-- `imageAnalyzer.calculateBrightness`: rounded mean pixel intensity. -/
def calculateBrightness (data : List ℕ) : ℤ :=
  jsRound ((data.sum : ℚ) / data.length)

/-- Rounded square root of a nonnegative rational, equal to JavaScript
`Math.round(Math.sqrt q)`: `⌊√q + 1/2⌋ = (⌊2√q⌋ + 1) / 2` and
`⌊2√q⌋ = Nat.sqrt ⌊4q⌋`. -/
def roundSqrt (q : ℚ) : ℤ := ((Nat.sqrt (⌊4 * q⌋).toNat + 1) / 2 : ℕ)

/-- `imageAnalyzer.calculateContrast`: rounded population standard
deviation of the pixel intensities around the (rounded) mean. -/
def calculateContrast (data : List ℕ) (mean : ℤ) : ℤ :=
  roundSqrt ((data.map fun p : ℕ => ((p : ℚ) - (mean : ℚ)) ^ 2).sum / data.length)

/-- Clamp a convolution response to the unsigned byte range, as libvips
does when writing `uchar` output. -/
def clampByte (z : ℤ) : ℤ := max 0 (min 255 z)

/-- Pixel lookup with coordinates clamped to the frame (edge
replication). -/
def pxAt (f : Frame) (x y : ℤ) : ℕ :=
  f.data.getD
    ((min ((f.height : ℤ) - 1) (max 0 y)).toNat * f.width
      + (min ((f.width : ℤ) - 1) (max 0 x)).toNat) 0

/-- The clamped discrete-Laplacian response `[[0,-1,0],[-1,4,-1],[0,-1,0]]`
at one pixel. -/
def laplacianAt (f : Frame) (x y : ℕ) : ℤ :=
  clampByte (4 * pxAt f x y - pxAt f ((x : ℤ) - 1) y - pxAt f ((x : ℤ) + 1) y
    - pxAt f x ((y : ℤ) - 1) - pxAt f x ((y : ℤ) + 1))

/-- The Laplacian-filtered buffer, row-major. -/
def laplacianData (f : Frame) : List ℤ :=
  (List.range f.height).flatMap fun y => (List.range f.width).map fun x => laplacianAt f x y

/-- `imageAnalyzer.calculateBlur`: variance of the Laplacian-filtered
frame, normalized by 20 and capped at 100. The `sharp` downscale to fit
within 200×200 is a collaborator primitive applied before this function
receives the raster; it maps constant frames to constant frames, the only
case the claims rely on. -/
def calculateBlur (f : Frame) : ℤ :=
  min 100 (jsRound
    ((((laplacianData f).map fun z : ℤ => (z : ℚ) * (z : ℚ)).sum / (laplacianData f).length
      - ((laplacianData f).sum : ℚ) / (laplacianData f).length
        * (((laplacianData f).sum : ℚ) / (laplacianData f).length)) / 20))

/-- Edge-pixel count of `imageAnalyzer.calculateEdgeDensity`: pixels (last
row/column excluded) whose forward-difference gradient magnitude exceeds
30; the comparison `sqrt (gx² + gy²) > 30` is decided by squaring. -/
def edgeCount (f : Frame) : ℕ :=
  ((List.range (f.height - 1)).map fun y =>
    (List.range (f.width - 1)).countP fun x =>
      let idx := y * f.width + x
      let current : ℤ := f.data.getD idx 0
      let right : ℤ := f.data.getD (idx + 1) 0
      let below : ℤ := f.data.getD (idx + f.width) 0
      decide (900 < (right - current) * (right - current)
        + (below - current) * (below - current))).sum

/-- `imageAnalyzer.calculateEdgeDensity`: rounded percentage of edge
pixels among the compared pixels. -/
def calculateEdgeDensity (f : Frame) : ℤ :=
  jsRound (((edgeCount f : ℚ) / (((f.width - 1) * (f.height - 1) : ℕ) : ℚ)) * 100)

/-- The metrics record returned by `imageAnalyzer.analyzeImage`. -/
structure AnalysisResult where
  brightness : ℤ
  contrast : ℤ
  sharpness : ℤ
  edgeDensity : ℤ
  error : Option String
deriving DecidableEq

/-- `imageAnalyzer.analyzeImage`: compute the four metrics from the
decoded grayscale raster; when the decode collaborator fails, return the
neutral fallback metrics tagged with the error instead of raising. The
function being total is the embedding of "a bad frame never raises". -/
def analyzeImage : Except String Frame → AnalysisResult
  | .error e => ⟨128, 50, 50, 50, some e⟩
  | .ok f =>
    let brightness := calculateBrightness f.data
    ⟨brightness, calculateContrast f.data brightness, calculateBlur f,
      calculateEdgeDensity f, none⟩

/-- The keyframe metric record phase 1 builds from one analysis result. -/
def toKeyframe (a : AnalysisResult) : Keyframe := ⟨a.brightness, a.sharpness⟩

/-- The keyframe records phase 1 builds by running `analyzeImage` over the
extracted frames in extraction order. -/
def keyframesOf (frames : List (Except String Frame)) : List Keyframe :=
  frames.map fun fr => toKeyframe (analyzeImage fr)

/-- Batch analysis: `analyzeImage` mapped over all decoded frames. -/
def analyzeFrames (frames : List (Except String Frame)) : List AnalysisResult :=
  frames.map analyzeImage

/-- `SplattingAnalyzer` threshold: minimum camera motion. -/
def minCameraMotion : ℚ := 5

/-- `SplattingAnalyzer` threshold: maximum camera motion. -/
def maxCameraMotion : ℚ := 100

/-- `SplattingAnalyzer` threshold: minimum frame overlap percentage. -/
def minOverlap : ℚ := 50

/-- `SplattingAnalyzer` threshold: maximum frame overlap percentage. -/
def maxOverlap : ℚ := 85

/-- `SplattingAnalyzer` threshold: maximum exposure variance. -/
def maxExposureVariance : ℚ := 20

/-- `SplattingAnalyzer` threshold: minimum feature count. -/
def minFeatureCount : ℚ := 50

/-- `SplattingAnalyzer` threshold: maximum reflective area percentage. -/
def maxReflectiveArea : ℚ := 30

/-- `SplattingAnalyzer` threshold: maximum moving-pixel percentage. -/
def maxMotionPixels : ℚ := 10

/-- `SplattingAnalyzer.calculateVariance`: population variance. -/
def calculateVariance (values : List ℚ) : ℚ :=
  if values.length = 0 then 0
  else ((values.map fun x => (x - values.sum / values.length) ^ 2).sum) / values.length

/-- `SplattingAnalyzer.estimateMotion` at the collaborator boundary: both
frames have been decoded and resampled by `sharp` to the same small
grayscale raster; the value is the mean absolute pixel difference. -/
def estimateMotion (buf1 buf2 : List ℕ) : ℚ :=
  ((buf1.zip buf2).map fun p => |(p.1 : ℚ) - (p.2 : ℚ)|).sum / buf1.length

/-- The per-pair MotionEstimator samples collected by
`analyzeCameraMotion`: loop `i = 1` while `i < min(length, 10)`, comparing
frames `i − 1` and `i`. -/
def motionValues {α : Type} [Inhabited α] (motion : α → α → ℚ) (frames : List α) : List ℚ :=
  (List.range' 1 (min frames.length 10 - 1)).map fun i =>
    motion (frames.getD (i - 1) default) (frames.getD i default)

/-- The average motion computed by `analyzeCameraMotion`. -/
def avgMotion {α : Type} [Inhabited α] (motion : α → α → ℚ) (frames : List α) : ℚ :=
  (motionValues motion frames).sum / (motionValues motion frames).length

/-- Diagnostic details attached to a check result (the fields read
downstream plus the user-facing recommendation). -/
structure Details where
  averageMotion : Option ℤ
  motionVariance : Option ℤ
  estimatedOverlap : Option ℤ
  recommendation : Option String
deriving DecidableEq

/-- An empty details map. -/
def emptyDetails : Details := ⟨none, none, none, none⟩

/-- One suitability check's outcome: score, optional issue, diagnostics. -/
structure CheckResult where
  score : ℚ
  issue : Option String
  details : Details
deriving DecidableEq

/-- `SplattingAnalyzer.analyzeCameraMotion`: score bands on the average
per-pair motion and its variance; fewer than 2 frames scores 0. -/
def analyzeCameraMotion {α : Type} [Inhabited α] (motion : α → α → ℚ) (frames : List α) :
    CheckResult :=
  if frames.length < 2 then ⟨0, some "Zu wenige Frames", emptyDetails⟩
  else
    ⟨if avgMotion motion frames < minCameraMotion then 30
      else if avgMotion motion frames > maxCameraMotion then 40
      else if calculateVariance (motionValues motion frames) > 500 then 60
      else min 100 (70 + avgMotion motion frames / 3),
    if avgMotion motion frames < minCameraMotion then
      some "Zu wenig Kamerabewegung - kaum Parallaxe für 3D"
    else if avgMotion motion frames > maxCameraMotion then
      some "Zu schnelle Bewegung - Gefahr von Motion Blur"
    else if calculateVariance (motionValues motion frames) > 500 then
      some "Ungleichmäßige Bewegung - ruckelige Aufnahme"
    else none,
    ⟨some (jsRound (avgMotion motion frames)),
      some (jsRound (calculateVariance (motionValues motion frames))), none,
      some (if avgMotion motion frames < 5 then
          "Bewegen Sie die Kamera langsam um das Objekt herum"
        else if avgMotion motion frames > 80 then "Bewegen Sie die Kamera langsamer"
        else "Gute Kamerabewegung")⟩⟩

/-- The motion value `analyzeFrameOverlap` reads back from the camera
motion details: `motionResults.details.averageMotion || 20` — the
JavaScript `||` replaces the falsy value 0 (or an absent field) by 20. -/
def overlapMotion {α : Type} [Inhabited α] (motion : α → α → ℚ) (frames : List α) : ℚ :=
  match (analyzeCameraMotion motion frames).details.averageMotion with
  | some z => if z = 0 then 20 else (z : ℚ)
  | none => 20

/-- `estimatedOverlap = Math.max(40, Math.min(95, 95 − motion))`. -/
def estimatedOverlap {α : Type} [Inhabited α] (motion : α → α → ℚ) (frames : List α) : ℚ :=
  max 40 (min 95 (95 - overlapMotion motion frames))

/-- `SplattingAnalyzer.analyzeFrameOverlap`: bands on the estimated
overlap derived from the camera motion; fewer than 2 frames scores 0. -/
def analyzeFrameOverlap {α : Type} [Inhabited α] (motion : α → α → ℚ) (frames : List α) :
    CheckResult :=
  if frames.length < 2 then ⟨0, some "Zu wenige Frames", emptyDetails⟩
  else
    ⟨if estimatedOverlap motion frames > maxOverlap then 60
      else if estimatedOverlap motion frames < minOverlap then 40
      else 85,
    if estimatedOverlap motion frames > maxOverlap then
      some "Zu viel Überlappung - mehr Bewegung nötig für Parallaxe"
    else if estimatedOverlap motion frames < minOverlap then
      some "Zu wenig Überlappung - langsamere Bewegung oder mehr Frames"
    else none,
    ⟨none, none, some (jsRound (estimatedOverlap motion frames)),
      some (if estimatedOverlap motion frames > 85 then
          "Bewegen Sie die Kamera mehr zwischen den Frames"
        else if estimatedOverlap motion frames < 50 then "Bewegen Sie die Kamera langsamer"
        else "Gute Frame-Überlappung")⟩⟩

/-- `SplattingAnalyzer.analyzeExposureConsistency`: bands on the variance
of keyframe brightness; fewer than 3 frames scores 50. -/
def analyzeExposureConsistency (keyframes : List Keyframe) : CheckResult :=
  if keyframes.length < 3 then ⟨50, some "Zu wenige Frames", emptyDetails⟩
  else
    ⟨if calculateVariance (keyframes.map (·.brightness)) > maxExposureVariance * 2 then 30
      else if calculateVariance (keyframes.map (·.brightness)) > maxExposureVariance then 60
      else min 100 (80 + (20 - calculateVariance (keyframes.map (·.brightness)))),
    if calculateVariance (keyframes.map (·.brightness)) > maxExposureVariance * 2 then
      some "Starke Helligkeitsschwankungen - Auto-Exposure deaktivieren"
    else if calculateVariance (keyframes.map (·.brightness)) > maxExposureVariance then
      some "Leichte Helligkeitsschwankungen erkannt"
    else none,
    ⟨none, none, none,
      some (if calculateVariance (keyframes.map (·.brightness)) > 15 then
          "Verwenden Sie manuellen Belichtungsmodus"
        else "Stabile Belichtung")⟩⟩

/-- The sampled average over the first `min(length, 5)` frames, used by
the reflective-surfaces and feature-density checks. -/
def sampleAvg {α : Type} (f : α → ℚ) (frames : List α) : ℚ :=
  ((frames.take 5).map f).sum / ((frames.take 5).map f).length

/-- `SplattingAnalyzer.analyzeReflectiveSurfaces`: bands on the average
highlight percentage of the first up-to-5 frames; `highlight` is the
`detectHighlights` collaborator primitive. Zero frames scores 50. -/
def analyzeReflectiveSurfaces {α : Type} (highlight : α → ℚ) (frames : List α) : CheckResult :=
  if frames.length = 0 then ⟨50, some "Keine Frames", emptyDetails⟩
  else
    ⟨if sampleAvg highlight frames > maxReflectiveArea then 40
      else if sampleAvg highlight frames > maxReflectiveArea / 2 then 70
      else 90,
    if sampleAvg highlight frames > maxReflectiveArea then
      some "Viele reflektierende Oberflächen erkannt (Metall/Glas)"
    else if sampleAvg highlight frames > maxReflectiveArea / 2 then
      some "Einige glänzende Bereiche erkannt"
    else none,
    ⟨none, none, none,
      some (if sampleAvg highlight frames > 20 then
          "Vermeiden Sie glänzende Oberflächen oder nutzen Sie mattes Licht"
        else "Keine problematischen Reflektionen")⟩⟩

/-- The per-pair scene-change samples of `analyzeSceneStaticness`: loop
`i = 2` step 2 while `i < min(length, 8)`, comparing frames `i − 2` and
`i`. -/
def staticSamples {α : Type} [Inhabited α] (change : α → α → ℚ) (frames : List α) : List ℚ :=
  (List.range' 2 ((min frames.length 8 - 1) / 2) 2).map fun i =>
    change (frames.getD (i - 2) default) (frames.getD i default)

/-- `SplattingAnalyzer.analyzeSceneStaticness`: bands on the average
changed-pixel percentage; `change` is the `detectSceneChanges`
collaborator primitive. Fewer than 3 frames scores 50. -/
def analyzeSceneStaticness {α : Type} [Inhabited α] (change : α → α → ℚ) (frames : List α) :
    CheckResult :=
  if frames.length < 3 then ⟨50, some "Zu wenige Frames", emptyDetails⟩
  else
    ⟨if (staticSamples change frames).sum / (staticSamples change frames).length
          > maxMotionPixels * 3 then 30
      else if (staticSamples change frames).sum / (staticSamples change frames).length
          > maxMotionPixels then 60
      else 90,
    if (staticSamples change frames).sum / (staticSamples change frames).length
        > maxMotionPixels * 3 then
      some "Bewegende Objekte in der Szene erkannt"
    else if (staticSamples change frames).sum / (staticSamples change frames).length
        > maxMotionPixels then
      some "Leichte Bewegung in der Szene"
    else none,
    ⟨none, none, none,
      some (if (staticSamples change frames).sum / (staticSamples change frames).length
            > 10 then
          "Stellen Sie sicher, dass keine Objekte in der Szene bewegt werden"
        else "Szene ist ausreichend statisch")⟩⟩

/-- `SplattingAnalyzer.analyzeFeatureDensity`: bands on the average
feature count of the first up-to-5 frames; `features` is the
`countFeatures` collaborator primitive. Zero frames scores 0. -/
def analyzeFeatureDensity {α : Type} (features : α → ℚ) (frames : List α) : CheckResult :=
  if frames.length = 0 then ⟨0, some "Keine Frames", emptyDetails⟩
  else
    ⟨if sampleAvg features frames < minFeatureCount then 30
      else if sampleAvg features frames < minFeatureCount * 2 then 60
      else min 100 (70 + sampleAvg features frames / 5),
    if sampleAvg features frames < minFeatureCount then
      some "Zu wenige erkennbare Features - Szene zu glatt/uniform"
    else if sampleAvg features frames < minFeatureCount * 2 then
      some "Mäßige Feature-Dichte - mehr Textur wäre besser"
    else none,
    ⟨none, none, none,
      some (if sampleAvg features frames < 50 then
          "Fügen Sie texturierte Objekte hinzu oder filmen Sie näher"
        else "Ausreichend Features für die Rekonstruktion")⟩⟩

/-- Weight of the camera-motion check in the suitability score. -/
def wCameraMotion : ℚ := 25/100

/-- Weight of the frame-overlap check in the suitability score. -/
def wFrameOverlap : ℚ := 15/100

/-- Weight of the exposure-consistency check in the suitability score. -/
def wExposure : ℚ := 10/100

/-- Weight of the reflective-surfaces check in the suitability score. -/
def wReflective : ℚ := 15/100

/-- Weight of the scene-staticness check in the suitability score. -/
def wStaticness : ℚ := 10/100

/-- Weight of the feature-density check in the suitability score. -/
def wFeatureDensity : ℚ := 25/100

/-- The six check results of `SplattingAnalyzer.analyze`, in the insertion
order of the source's `results` object. -/
structure SplatResults where
  cameraMotion : CheckResult
  frameOverlap : CheckResult
  exposureConsistency : CheckResult
  reflectiveSurfaces : CheckResult
  sceneStaticness : CheckResult
  featureDensity : CheckResult
deriving DecidableEq

/-- `SplattingAnalyzer.analyze`, check phase: run the six checks on the
keyframe metric records and the frame sequence, with the four pixel-level
primitives (`motion`, `highlight`, `change`, `features`) supplied at the
collaborator boundary. -/
def analyzeSplatting {α : Type} [Inhabited α] (motion change : α → α → ℚ)
    (highlight features : α → ℚ) (keyframes : List Keyframe) (framePaths : List α) :
    SplatResults :=
  ⟨analyzeCameraMotion motion framePaths, analyzeFrameOverlap motion framePaths,
    analyzeExposureConsistency keyframes, analyzeReflectiveSurfaces highlight framePaths,
    analyzeSceneStaticness change framePaths, analyzeFeatureDensity features framePaths⟩

/-- The rounded weighted suitability score of `SplattingAnalyzer.analyze`. -/
def splattingScore (r : SplatResults) : ℤ :=
  jsRound (r.cameraMotion.score * wCameraMotion + r.frameOverlap.score * wFrameOverlap
    + r.exposureConsistency.score * wExposure + r.reflectiveSurfaces.score * wReflective
    + r.sceneStaticness.score * wStaticness + r.featureDensity.score * wFeatureDensity)

/-- The end-to-end phase-1 overall score of `Phase1Ingest.analyze`: the
basic score blended with the suitability score. -/
def phase1Overall {α : Type} [Inhabited α] (motion change : α → α → ℚ)
    (highlight features : α → ℚ) (keyframes : List Keyframe) (framePaths : List α)
    (frameCount : ℚ) : ℤ :=
  overallScore (basicScore keyframes frameCount)
    (splattingScore (analyzeSplatting motion change highlight features keyframes framePaths))

/-- Names of the six suitability checks. -/
inductive CheckName where
  | cameraMotion
  | frameOverlap
  | exposureConsistency
  | reflectiveSurfaces
  | sceneStaticness
  | featureDensity
deriving DecidableEq

/-- `Object.entries(results)` in the insertion order of the source's
`results` object. -/
def entriesOf (r : SplatResults) : List (CheckName × CheckResult) :=
  [(.cameraMotion, r.cameraMotion), (.frameOverlap, r.frameOverlap),
    (.exposureConsistency, r.exposureConsistency),
    (.reflectiveSurfaces, r.reflectiveSurfaces),
    (.sceneStaticness, r.sceneStaticness), (.featureDensity, r.featureDensity)]

/-- One entry of the issue list built by `generateRecommendation`. -/
structure IssueEntry where
  check : CheckName
  issue : String
  recommendation : String
deriving DecidableEq

/-- The issue list: every check carrying an issue, in insertion order,
with recommendation `details.recommendation || 'Bitte optimieren'`. -/
def issuesOf (r : SplatResults) : List IssueEntry :=
  (entriesOf r).filterMap fun e =>
    match e.2.issue with
    | some s => some ⟨e.1, s, e.2.details.recommendation.getD "Bitte optimieren"⟩
    | none => none

/-- A check's position in the source's `priorityOrder` array (the sort
comparator is `priorityOrder.indexOf(a) − priorityOrder.indexOf(b)`). -/
def priorityIdx : CheckName → ℕ
  | .featureDensity => 0
  | .cameraMotion => 1
  | .reflectiveSurfaces => 2
  | .frameOverlap => 3
  | .sceneStaticness => 4
  | .exposureConsistency => 5

/-- The issue list sorted ascending by priority position. -/
def sortedIssues (r : SplatResults) : List IssueEntry :=
  List.insertionSort (fun a b => priorityIdx a.check ≤ priorityIdx b.check) (issuesOf r)

/-- The object returned by `generateRecommendation`. -/
structure Recommendation where
  status : String
  message : String
  tips : List String
deriving DecidableEq

/-- `SplattingAnalyzer.generateRecommendation`. -/
def generateRecommendation (r : SplatResults) (overall : ℚ) : Recommendation :=
  if (issuesOf r).length = 0 then
    ⟨"optimal", "Das Video ist hervorragend für Gaussian Splatting geeignet!", []⟩
  else
    ⟨if overall ≥ 60 then "acceptable" else "needs_improvement",
      if overall ≥ 60 then
        "Das Video kann verarbeitet werden, aber Optimierungen würden das Ergebnis verbessern."
      else "Das Video sollte vor der Verarbeitung optimiert werden.",
      ((sortedIssues r).take 3).map (·.recommendation)⟩

/-- The six checks listed in the claim's fixed priority order (feature
density, camera motion, reflective surfaces, frame overlap, scene
staticness, exposure consistency). -/
def priorityEntries (r : SplatResults) : List (CheckName × CheckResult) :=
  [(.featureDensity, r.featureDensity), (.cameraMotion, r.cameraMotion),
    (.reflectiveSurfaces, r.reflectiveSurfaces), (.frameOverlap, r.frameOverlap),
    (.sceneStaticness, r.sceneStaticness), (.exposureConsistency, r.exposureConsistency)]

/-- Spec-side description of the ordered issue list: exactly the
issue-carrying checks, listed in the fixed priority order. -/
def specPriorityIssues (r : SplatResults) : List IssueEntry :=
  (priorityEntries r).filterMap fun e =>
    match e.2.issue with
    | some s => some ⟨e.1, s, e.2.details.recommendation.getD "Bitte optimieren"⟩
    | none => none

/-- The mock keyframes that the catch branch of
`Phase1Ingest.extractKeyframes` substitutes when keyframe extraction
fails; `rand` is the stream of `Math.random()` results, consumed two per
frame (brightness first, then sharpness). -/
def fallbackKeyframes (rand : ℕ → ℚ) : List Keyframe :=
  (List.range 10).map fun i =>
    ⟨100 + rand (2 * i) * 50, 70 + rand (2 * i + 1) * 30⟩

/-- Rounding a rational that is an integer is the identity. -/
theorem jsRound_intCast (n : ℤ) : jsRound (n : ℚ) = n := by
  unfold jsRound
  rw [add_comm, Int.floor_add_int]
  norm_num

/-- In-range reads of a constant frame's buffer give the constant. -/
theorem getD_constFrame (w h v idx : ℕ) (hidx : idx < w * h) :
    (constFrame w h v).data.getD idx 0 = v := by
  show (List.replicate (w * h) v).getD idx 0 = v
  rw [List.getD_eq_getElem _ _ (by simpa using hidx)]
  simp

/-- Every clamped pixel read of a constant frame gives the constant. -/
theorem pxAt_constFrame (w h v : ℕ) (hw : 0 < w) (hh : 0 < h) (x y : ℤ) :
    pxAt (constFrame w h v) x y = v := by
  unfold pxAt
  have h1 : (min ((h : ℤ) - 1) (max 0 y)).toNat ≤ h - 1 := by
    have := min_le_left ((h : ℤ) - 1) (max 0 y)
    omega
  have h2 : (min ((w : ℤ) - 1) (max 0 x)).toNat ≤ w - 1 := by
    have := min_le_left ((w : ℤ) - 1) (max 0 x)
    omega
  apply getD_constFrame
  calc (min ((h : ℤ) - 1) (max 0 y)).toNat * w
        + (min ((w : ℤ) - 1) (max 0 x)).toNat
      < ((min ((h : ℤ) - 1) (max 0 y)).toNat + 1) * w := by
        rw [add_mul, one_mul]; omega
    _ ≤ h * w := Nat.mul_le_mul_right w (by omega)
    _ = w * h := Nat.mul_comm h w

/-- The Laplacian response of a constant frame is zero at every pixel. -/
theorem laplacianAt_constFrame (w h v : ℕ) (hw : 0 < w) (hh : 0 < h) (x y : ℕ) :
    laplacianAt (constFrame w h v) x y = 0 := by
  unfold laplacianAt
  simp only [pxAt_constFrame w h v hw hh]
  unfold clampByte
  have : 4 * (v : ℤ) - v - v - v - v = 0 := by ring
  rw [this]
  simp

/-- `analyzeImage` on a constant frame: brightness is the constant value,
and contrast, sharpness and edge density are zero. -/
theorem analyzeImage_constFrame (w h v : ℕ) (hw : 0 < w) (hh : 0 < h) :
    analyzeImage (.ok (constFrame w h v)) = ⟨v, 0, 0, 0, none⟩ := by
  have hne : ((w : ℚ) * h) ≠ 0 :=
    mul_ne_zero (Nat.cast_ne_zero.2 hw.ne') (Nat.cast_ne_zero.2 hh.ne')
  have hbright : calculateBrightness (constFrame w h v).data = v := by
    unfold calculateBrightness constFrame
    simp only [List.sum_replicate, List.length_replicate, smul_eq_mul]
    push_cast
    rw [mul_comm ((w : ℚ) * h) (v : ℚ), mul_div_assoc, div_self hne, mul_one]
    exact_mod_cast jsRound_intCast v
  have hcontrast : calculateContrast (constFrame w h v).data v = 0 := by
    unfold calculateContrast constFrame
    simp only [List.map_replicate, List.sum_replicate, List.length_replicate, smul_eq_mul]
    norm_num [roundSqrt]
  have hlap : ∀ z ∈ laplacianData (constFrame w h v), z = 0 := by
    intro z hz
    simp only [laplacianData, List.mem_flatMap, List.mem_map, List.mem_range] at hz
    obtain ⟨y, -, x, -, rfl⟩ := hz
    exact laplacianAt_constFrame w h v hw hh x y
  have hsq : ∀ q ∈ (laplacianData (constFrame w h v)).map fun z : ℤ => (z : ℚ) * (z : ℚ),
      q = 0 := by
    intro q hq
    simp only [List.mem_map] at hq
    obtain ⟨a, ha, rfl⟩ := hq
    rw [hlap a ha]
    norm_num
  have hblur : calculateBlur (constFrame w h v) = 0 := by
    unfold calculateBlur
    rw [List.sum_eq_zero hlap, List.sum_eq_zero hsq]
    norm_num [jsRound]
  have hedge : calculateEdgeDensity (constFrame w h v) = 0 := by
    have hcount : edgeCount (constFrame w h v) = 0 := by
      unfold edgeCount constFrame
      dsimp only
      apply List.sum_eq_zero
      intro z hz
      simp only [List.mem_map, List.mem_range] at hz
      obtain ⟨y, hy, rfl⟩ := hz
      apply List.countP_eq_zero.2
      intro x hx
      simp only [List.mem_range] at hx
      have hbound : y * w + x + w < w * h := by
        calc y * w + x + w < y * w + w + w := by omega
          _ = (y + 2) * w := by ring
          _ ≤ h * w := Nat.mul_le_mul_right w (by omega)
          _ = w * h := Nat.mul_comm h w
      have e1 : (List.replicate (w * h) v).getD (y * w + x) 0 = v :=
        getD_constFrame w h v (y * w + x) (by omega)
      have e2 : (List.replicate (w * h) v).getD (y * w + x + 1) 0 = v :=
        getD_constFrame w h v (y * w + x + 1) (by omega)
      have e3 : (List.replicate (w * h) v).getD (y * w + x + w) 0 = v :=
        getD_constFrame w h v (y * w + x + w) (by omega)
      simp only [e1, e2, e3, sub_self, mul_zero, add_zero]
      norm_num
    unfold calculateEdgeDensity
    rw [hcount]
    norm_num [jsRound]
  show analyzeImage (.ok (constFrame w h v)) = _
  simp only [analyzeImage]
  rw [hbright, hcontrast, hblur, hedge]

/-- The tail of a replicated list drops one copy. -/
theorem tail_replicate {α : Type} (x : α) (n : ℕ) :
    (List.replicate n x).tail = List.replicate (n - 1) x := by
  cases n <;> simp [List.replicate_succ]

/-- Zipping two replications of the same element replicates the pair. -/
theorem zip_replicate_same {α : Type} (x : α) :
    ∀ n m : ℕ, (List.replicate n x).zip (List.replicate m x) = List.replicate (min n m) (x, x)
  | 0, m => by simp
  | n+1, 0 => by simp
  | n+1, m+1 => by
    simp [List.replicate_succ, zip_replicate_same x n m, Nat.succ_min_succ]

/-- Twenty identical all-128 frames produce twenty keyframes with
brightness 128 and sharpness 0. -/
theorem flatGray_keyframes (w h : ℕ) (hw : 0 < w) (hh : 0 < h) :
    keyframesOf (List.replicate 20 (Except.ok (constFrame w h 128))) =
      List.replicate 20 ⟨(128 : ℚ), 0⟩ := by
  unfold keyframesOf
  rw [List.map_replicate, analyzeImage_constFrame w h 128 hw hh]
  rfl

/-- Brightness score of twenty brightness-128 keyframes. -/
theorem flatGray_brightness_score :
    analyzeBrightness (List.replicate 20 ⟨(128 : ℚ), 0⟩) = 100 := by
  unfold analyzeBrightness metricMean
  norm_num [List.map_replicate, List.sum_replicate]

/-- Blur score of twenty sharpness-0 keyframes: the tiered lookup maps
mean sharpness 0 to its bottom tier 30. -/
theorem flatGray_blur_score :
    analyzeMotionBlur (List.replicate 20 ⟨(128 : ℚ), 0⟩) = 30 := by
  unfold analyzeMotionBlur metricMean
  norm_num [List.map_replicate, List.sum_replicate]

/-- Frame-count score at frameCount 300. -/
theorem frameCount300_score : analyzeFrameCount 300 = 100 := by
  norm_num [analyzeFrameCount]

/-- Consistency score of twenty identical keyframes. -/
theorem flatGray_consistency_score :
    analyzeConsistency (List.replicate 20 ⟨(128 : ℚ), 0⟩) = 100 := by
  unfold analyzeConsistency consistencyAvgVariation
  rw [tail_replicate, zip_replicate_same]
  norm_num [List.map_replicate, List.sum_replicate]

/-- Basic score of twenty identical mid-gray keyframes at frame count
300: `round(100·0.25 + 30·0.30 + 100·0.25 + 100·0.20) = 79`. -/
theorem flatGray_basic_score :
    basicScore (List.replicate 20 ⟨(128 : ℚ), 0⟩) 300 = 79 := by
  unfold basicScore basicFromSubscores
  rw [flatGray_consistency_score, flatGray_brightness_score, flatGray_blur_score,
    frameCount300_score]
  norm_num [jsRound, wBrightness, wBlur, wFrames, wConsistency]

/-- C2 counterexample: for twenty identical 4×4 all-128 frames with
frameCount 300, the basic-quality pipeline yields a weighted basic score
of 79, not 70 as the claim states. -/
theorem C2_counterexample :
    basicScore (keyframesOf (List.replicate 20 (Except.ok (constFrame 4 4 128)))) 300 = 79 ∧
    basicScore (keyframesOf (List.replicate 20 (Except.ok (constFrame 4 4 128)))) 300 ≠ 70 := by
  rw [flatGray_keyframes 4 4 (by norm_num) (by norm_num), flatGray_basic_score]
  norm_num

/-- C2 amended: for any video of twenty identical mid-gray (128) frames
with frameCount 300, the basic-quality computation yields brightness
score 100, blur score 30 (the tiered lookup at mean sharpness 0),
frame-count score 100, consistency score 100, and a weighted basic score
equal to 79. -/
theorem C2_flat_gray_scenario (w h : ℕ) (hw : 0 < w) (hh : 0 < h) :
    analyzeBrightness (keyframesOf (List.replicate 20 (Except.ok (constFrame w h 128)))) = 100 ∧
    analyzeMotionBlur (keyframesOf (List.replicate 20 (Except.ok (constFrame w h 128)))) = 30 ∧
    analyzeFrameCount 300 = 100 ∧
    analyzeConsistency (keyframesOf (List.replicate 20 (Except.ok (constFrame w h 128)))) = 100 ∧
    basicScore (keyframesOf (List.replicate 20 (Except.ok (constFrame w h 128)))) 300 = 79 := by
  rw [flatGray_keyframes w h hw hh]
  exact ⟨flatGray_brightness_score, flatGray_blur_score, frameCount300_score,
    flatGray_consistency_score, flatGray_basic_score⟩

/-- C2 witness: the amended scenario evaluated at 4×4 frames. -/
theorem C2_flat_gray_scenario_witness :
    analyzeBrightness (keyframesOf (List.replicate 20 (Except.ok (constFrame 4 4 128)))) = 100 ∧
    analyzeMotionBlur (keyframesOf (List.replicate 20 (Except.ok (constFrame 4 4 128)))) = 30 ∧
    analyzeFrameCount 300 = 100 ∧
    analyzeConsistency (keyframesOf (List.replicate 20 (Except.ok (constFrame 4 4 128)))) = 100 ∧
    basicScore (keyframesOf (List.replicate 20 (Except.ok (constFrame 4 4 128)))) 300 = 79 :=
  C2_flat_gray_scenario 4 4 (by norm_num) (by norm_num)

/-- C3: on extraction failure the substituted keyframe metrics depend on
the `Math.random()` stream — two different streams give different metric
lists and even different blur scores — so the metrics fed to the scorers
are drawn from a random source, contradicting the claim. -/
theorem C3_randomized_fallback :
    fallbackKeyframes (fun _ => 0) ≠ fallbackKeyframes (fun _ => 1/2) ∧
    analyzeMotionBlur (fallbackKeyframes (fun _ => 0)) = 70 ∧
    analyzeMotionBlur (fallbackKeyframes (fun _ => 1/2)) = 85 := by
  have hr : List.range 10 = [0, 1, 2, 3, 4, 5, 6, 7, 8, 9] := rfl
  refine ⟨fun hcontra => ?_, ?_, ?_⟩
  · have hb := congrArg (fun l => (l.headD ⟨0, 0⟩).brightness) hcontra
    simp only [fallbackKeyframes, hr] at hb
    norm_num at hb
  · unfold analyzeMotionBlur metricMean fallbackKeyframes
    rw [hr]
    norm_num
  · unfold analyzeMotionBlur metricMean fallbackKeyframes
    rw [hr]
    norm_num

/-- C7: when the decode of a single frame fails, the analyzer returns the
neutral fallback metrics (brightness 128, contrast 50, sharpness 50, edge
density 50) tagged with the error instead of raising, the batch keeps one
result per frame, and a failing frame leaves every other frame's analysis
untouched. -/
theorem C7_per_frame_fallback :
    (∀ e : String, analyzeImage (Except.error e) = ⟨128, 50, 50, 50, some e⟩) ∧
    (∀ frames : List (Except String Frame),
      (analyzeFrames frames).length = frames.length) ∧
    (∀ (pre post : List (Except String Frame)) (e : String),
      analyzeFrames (pre ++ Except.error e :: post) =
        analyzeFrames pre ++ ⟨128, 50, 50, 50, some e⟩ :: analyzeFrames post) := by
  refine ⟨fun e => rfl, fun frames => List.length_map frames analyzeImage,
    fun pre post e => ?_⟩
  unfold analyzeFrames
  simp [analyzeImage]

/-- In-range reads of a replicated list give the replicated element. -/
theorem getD_replicate_lt {α : Type} (x d : α) (n i : ℕ) (h : i < n) :
    (List.replicate n x).getD i d = x := by
  rw [List.getD_eq_getElem _ _ (by simpa using h)]
  simp

/-- C4 counterexample: with 11 frames and a MotionEstimator that is 100 on
the pair (9,10) and 0 on every other pair, the camera-motion check
reports average motion 0, while the arithmetic mean of the first 10
per-pair values is 10 and their variance is 900: the code samples only
the 9 pairs (0,1)…(8,9), not 10. -/
theorem C4_counterexample :
    avgMotion (fun a b => if a = 9 ∧ b = 10 then 100 else 0) (List.range 11) = 0 ∧
    (analyzeCameraMotion (fun a b => if a = 9 ∧ b = 10 then 100 else 0)
      (List.range 11)).details.averageMotion = some 0 ∧
    ((List.range 10).map fun i =>
      (fun a b : ℕ => if a = 9 ∧ b = 10 then (100 : ℚ) else 0) i (i + 1)).sum / 10 = 10 ∧
    calculateVariance ((List.range 10).map fun i =>
      (fun a b : ℕ => if a = 9 ∧ b = 10 then (100 : ℚ) else 0) i (i + 1)) = 900 := by
  have hmv : motionValues (fun a b => if a = 9 ∧ b = 10 then (100 : ℚ) else 0)
      (List.range 11) = List.replicate 9 0 := rfl
  have havg : avgMotion (fun a b => if a = 9 ∧ b = 10 then (100 : ℚ) else 0)
      (List.range 11) = 0 := by
    unfold avgMotion
    rw [hmv]
    simp
  have hten : ((List.range 10).map fun i =>
      (fun a b : ℕ => if a = 9 ∧ b = 10 then (100 : ℚ) else 0) i (i + 1)) =
      [0, 0, 0, 0, 0, 0, 0, 0, 0, 100] := rfl
  refine ⟨havg, ?_, ?_, ?_⟩
  · unfold analyzeCameraMotion
    rw [if_neg (by simp)]
    show some (jsRound (avgMotion _ (List.range 11))) = some 0
    rw [havg]
    norm_num [jsRound]
  · rw [hten]
    norm_num
  · rw [hten]
    norm_num [calculateVariance]

/-- C4 amended: for every frame sequence with at least 11 frames, the
camera-motion check samples exactly the 9 consecutive pairs (0,1)…(8,9):
its average motion is their arithmetic mean and its reported motion
variance is the variance of those 9 per-pair values. -/
theorem C4_nine_pairs {α : Type} [Inhabited α] (motion : α → α → ℚ) (frames : List α)
    (hlen : 11 ≤ frames.length) :
    motionValues motion frames = (List.range 9).map (fun i =>
      motion (frames.getD i default) (frames.getD (i + 1) default)) ∧
    avgMotion motion frames = ((List.range 9).map (fun i =>
      motion (frames.getD i default) (frames.getD (i + 1) default))).sum / 9 ∧
    (analyzeCameraMotion motion frames).details.motionVariance =
      some (jsRound (calculateVariance ((List.range 9).map (fun i =>
        motion (frames.getD i default) (frames.getD (i + 1) default))))) := by
  have hmin : min frames.length 10 - 1 = 9 := by omega
  have hmv : motionValues motion frames = (List.range 9).map (fun i =>
      motion (frames.getD i default) (frames.getD (i + 1) default)) := by
    unfold motionValues
    rw [hmin, List.range'_eq_map_range, List.map_map]
    refine List.map_congr_left fun i hi => ?_
    show motion (frames.getD (1 + i - 1) default) (frames.getD (1 + i) default) = _
    rw [show 1 + i - 1 = i by omega, show 1 + i = i + 1 by omega]
  refine ⟨hmv, ?_, ?_⟩
  · unfold avgMotion
    rw [hmv]
    simp
  · unfold analyzeCameraMotion
    rw [if_neg (by omega), hmv]

/-- C4 witness: the nine-pair theorem applied to 11 frames and the
MotionEstimator that sums the two frame indices. -/
theorem C4_nine_pairs_witness :
    motionValues (fun a b : ℕ => (a : ℚ) + b) (List.range 11) =
      (List.range 9).map (fun i => (((List.range 11).getD i default : ℕ) : ℚ)
        + ((List.range 11).getD (i + 1) default : ℕ)) ∧
    avgMotion (fun a b : ℕ => (a : ℚ) + b) (List.range 11) =
      ((List.range 9).map (fun i => (((List.range 11).getD i default : ℕ) : ℚ)
        + ((List.range 11).getD (i + 1) default : ℕ))).sum / 9 ∧
    (analyzeCameraMotion (fun a b : ℕ => (a : ℚ) + b)
        (List.range 11)).details.motionVariance =
      some (jsRound (calculateVariance ((List.range 9).map (fun i =>
        (((List.range 11).getD i default : ℕ) : ℚ)
          + ((List.range 11).getD (i + 1) default : ℕ))))) :=
  C4_nine_pairs (fun a b : ℕ => (a : ℚ) + b) (List.range 11) (by decide)

/-- The summed absolute differences of a buffer zipped with itself. -/
theorem zip_self_absdiff_sum (b : List ℕ) :
    ((b.zip b).map fun p => |(p.1 : ℚ) - (p.2 : ℚ)|).sum = 0 := by
  induction b with
  | nil => rfl
  | cons x t ih => simp [List.zip_cons_cons, ih]

/-- The MotionEstimator gives 0 on two bit-identical frames. -/
theorem estimateMotion_self (b : List ℕ) : estimateMotion b b = 0 := by
  unfold estimateMotion
  rw [zip_self_absdiff_sum]
  simp

/-- All per-pair motion samples over identical frames are 0. -/
theorem motionValues_replicate_self (n : ℕ) (buf : List ℕ) :
    ∀ q ∈ motionValues estimateMotion (List.replicate n buf), q = 0 := by
  intro q hq
  unfold motionValues at hq
  simp only [List.mem_map, List.mem_range'_1] at hq
  obtain ⟨i, hi, rfl⟩ := hq
  have h1 : i - 1 < n := by
    simp only [List.length_replicate] at hi
    omega
  have h2 : i < n := by
    simp only [List.length_replicate] at hi
    omega
  rw [getD_replicate_lt _ _ _ _ h1, getD_replicate_lt _ _ _ _ h2]
  exact estimateMotion_self buf

/-- The average motion over identical frames is 0. -/
theorem avgMotion_replicate_self (n : ℕ) (buf : List ℕ) :
    avgMotion estimateMotion (List.replicate n buf) = 0 := by
  unfold avgMotion
  rw [List.sum_eq_zero (motionValues_replicate_self n buf)]
  simp

/-- For at least 2 frames the camera-motion details carry the rounded
average motion. -/
theorem cameraMotion_avg_detail {α : Type} [Inhabited α] (motion : α → α → ℚ)
    (frames : List α) (hlen : 2 ≤ frames.length) :
    (analyzeCameraMotion motion frames).details.averageMotion =
      some (jsRound (avgMotion motion frames)) := by
  unfold analyzeCameraMotion
  rw [if_neg (by omega)]

/-- For at least 2 frames the overlap check's motion input is the rounded
average motion, with the falsy value 0 replaced by 20. -/
theorem overlapMotion_eq {α : Type} [Inhabited α] (motion : α → α → ℚ)
    (frames : List α) (hlen : 2 ≤ frames.length) :
    overlapMotion motion frames =
      (if jsRound (avgMotion motion frames) = 0 then 20
        else (jsRound (avgMotion motion frames) : ℚ)) := by
  unfold overlapMotion
  rw [cameraMotion_avg_detail motion frames hlen]

/-- Identical frames: average motion 0, so the `|| 20` substitution fires
and the overlap check lands in the sweet-spot band. -/
theorem overlap_replicate_self (n : ℕ) (hn : 2 ≤ n) (buf : List ℕ) :
    (analyzeFrameOverlap estimateMotion (List.replicate n buf)).score = 85 ∧
    (analyzeFrameOverlap estimateMotion (List.replicate n buf)).issue = none ∧
    (analyzeFrameOverlap estimateMotion
      (List.replicate n buf)).details.estimatedOverlap = some 75 := by
  have hlen : 2 ≤ (List.replicate n buf).length := by simpa using hn
  have hest : estimatedOverlap estimateMotion (List.replicate n buf) = 75 := by
    unfold estimatedOverlap
    rw [overlapMotion_eq _ _ hlen, avgMotion_replicate_self n buf]
    norm_num [jsRound]
  unfold analyzeFrameOverlap
  rw [if_neg (by omega), hest]
  norm_num [maxOverlap, minOverlap, jsRound]

/-- C5 counterexample: a sequence of bit-identical frames yields
estimated overlap 75 (not 95) and score 85 with no issue (not 60 with a
too-much-overlap issue): the rounded average motion 0 is falsy in
JavaScript, so `details.averageMotion || 20` substitutes 20. -/
theorem C5_counterexample :
    (analyzeFrameOverlap estimateMotion
      (List.replicate 3 (List.replicate 8 (128 : ℕ)))).score = 85 ∧
    (analyzeFrameOverlap estimateMotion
      (List.replicate 3 (List.replicate 8 (128 : ℕ)))).score ≠ 60 ∧
    (analyzeFrameOverlap estimateMotion
      (List.replicate 3 (List.replicate 8 (128 : ℕ)))).issue = none ∧
    (analyzeFrameOverlap estimateMotion
      (List.replicate 3 (List.replicate 8 (128 : ℕ)))).details.estimatedOverlap = some 75 ∧
    (analyzeFrameOverlap estimateMotion
      (List.replicate 3 (List.replicate 8 (128 : ℕ)))).details.estimatedOverlap ≠ some 95 := by
  obtain ⟨h1, h2, h3⟩ := overlap_replicate_self 3 (by norm_num) (List.replicate 8 128)
  refine ⟨h1, ?_, h2, h3, ?_⟩
  · rw [h1]
    norm_num
  · rw [h3]
    simp

/-- C5 amended: for at least 2 frames the estimated overlap is
`clamp(40, 95, 95 − m)` where `m` is the rounded average motion with the
falsy value 0 replaced by 20; overlap above 85 scores 60 with a
too-much-overlap issue, below 50 scores 40 with a too-little-overlap
issue, otherwise 85 with no issue; bit-identical frames give estimated
overlap 75 and score 85 with no issue. -/
theorem C5_overlap_bands {α : Type} [Inhabited α] (motion : α → α → ℚ) (frames : List α)
    (hlen : 2 ≤ frames.length) :
    estimatedOverlap motion frames =
      max 40 (min 95 (95 - (if jsRound (avgMotion motion frames) = 0 then (20 : ℚ)
        else (jsRound (avgMotion motion frames) : ℚ)))) ∧
    (analyzeFrameOverlap motion frames).details.estimatedOverlap =
      some (jsRound (estimatedOverlap motion frames)) ∧
    (estimatedOverlap motion frames > maxOverlap →
      (analyzeFrameOverlap motion frames).score = 60 ∧
      (analyzeFrameOverlap motion frames).issue =
        some "Zu viel Überlappung - mehr Bewegung nötig für Parallaxe") ∧
    (estimatedOverlap motion frames < minOverlap →
      (analyzeFrameOverlap motion frames).score = 40 ∧
      (analyzeFrameOverlap motion frames).issue =
        some "Zu wenig Überlappung - langsamere Bewegung oder mehr Frames") ∧
    (minOverlap ≤ estimatedOverlap motion frames → estimatedOverlap motion frames ≤ maxOverlap →
      (analyzeFrameOverlap motion frames).score = 85 ∧
      (analyzeFrameOverlap motion frames).issue = none) ∧
    (∀ (n : ℕ) (buf : List ℕ), 2 ≤ n →
      (analyzeFrameOverlap estimateMotion (List.replicate n buf)).score = 85 ∧
      (analyzeFrameOverlap estimateMotion (List.replicate n buf)).issue = none ∧
      (analyzeFrameOverlap estimateMotion
        (List.replicate n buf)).details.estimatedOverlap = some 75) := by
  refine ⟨?_, ?_, ?_, ?_, ?_, fun n buf hn => overlap_replicate_self n hn buf⟩
  · unfold estimatedOverlap
    rw [overlapMotion_eq motion frames hlen]
  · unfold analyzeFrameOverlap
    rw [if_neg (by omega)]
  · intro hgt
    unfold analyzeFrameOverlap
    rw [if_neg (by omega)]
    refine ⟨?_, ?_⟩ <;> · dsimp only; rw [if_pos hgt]
  · intro hlt
    have hng : ¬(estimatedOverlap motion frames > maxOverlap) := by
      simp only [maxOverlap]
      simp only [minOverlap] at hlt
      linarith
    unfold analyzeFrameOverlap
    rw [if_neg (by omega)]
    refine ⟨?_, ?_⟩ <;> · dsimp only; rw [if_neg hng, if_pos hlt]
  · intro hge hle
    have h1 : ¬(estimatedOverlap motion frames > maxOverlap) := not_lt.2 hle
    have h2 : ¬(estimatedOverlap motion frames < minOverlap) := not_lt.2 hge
    unfold analyzeFrameOverlap
    rw [if_neg (by omega)]
    refine ⟨?_, ?_⟩ <;> · dsimp only; rw [if_neg h1, if_neg h2]

/-- C5 witness: the overlap theorem applied to three identical frames. -/
theorem C5_overlap_bands_witness :
    (analyzeFrameOverlap estimateMotion
      (List.replicate 3 (List.replicate 4 (200 : ℕ)))).score = 85 ∧
    (analyzeFrameOverlap estimateMotion
      (List.replicate 3 (List.replicate 4 (200 : ℕ)))).issue = none ∧
    (analyzeFrameOverlap estimateMotion
      (List.replicate 3 (List.replicate 4 (200 : ℕ)))).details.estimatedOverlap = some 75 :=
  (C5_overlap_bands estimateMotion (List.replicate 3 (List.replicate 4 200))
    (by decide)).2.2.2.2.2 3 (List.replicate 4 200) (by decide)

/-- Rounding is monotone. -/
theorem jsRound_mono {p q : ℚ} (h : p ≤ q) : jsRound p ≤ jsRound q :=
  Int.floor_le_floor (by linarith)

/-- Rounding a nonnegative rational is nonnegative. -/
theorem jsRound_nonneg {q : ℚ} (h : 0 ≤ q) : 0 ≤ jsRound q := by
  have h0 : jsRound ((0 : ℤ) : ℚ) = 0 := jsRound_intCast 0
  have := jsRound_mono (show ((0 : ℤ) : ℚ) ≤ q by exact_mod_cast h)
  omega

/-- Rounding respects an integer upper bound. -/
theorem jsRound_le_of_le {q : ℚ} {n : ℤ} (h : q ≤ (n : ℚ)) : jsRound q ≤ n := by
  have := jsRound_mono h
  rwa [jsRound_intCast] at this

/-- The brightness sub-score is in [0, 100]. -/
theorem analyzeBrightness_bounds (kf : List Keyframe) :
    0 ≤ analyzeBrightness kf ∧ analyzeBrightness kf ≤ 100 := by
  unfold analyzeBrightness
  split_ifs <;> norm_num

/-- The blur sub-score is in [0, 100]. -/
theorem analyzeMotionBlur_bounds (kf : List Keyframe) :
    0 ≤ analyzeMotionBlur kf ∧ analyzeMotionBlur kf ≤ 100 := by
  unfold analyzeMotionBlur
  split_ifs <;> norm_num

/-- The frame-count sub-score is in [0, 100]. -/
theorem analyzeFrameCount_bounds (fc : ℚ) :
    0 ≤ analyzeFrameCount fc ∧ analyzeFrameCount fc ≤ 100 := by
  unfold analyzeFrameCount
  split_ifs <;> norm_num

/-- The consistency sub-score is in [0, 100]. -/
theorem analyzeConsistency_bounds (kf : List Keyframe) :
    0 ≤ analyzeConsistency kf ∧ analyzeConsistency kf ≤ 100 := by
  unfold analyzeConsistency
  split_ifs <;> norm_num

/-- The camera-motion check score is in [0, 100]. -/
theorem cameraMotion_score_bounds {α : Type} [Inhabited α] (motion : α → α → ℚ)
    (frames : List α) :
    0 ≤ (analyzeCameraMotion motion frames).score ∧
    (analyzeCameraMotion motion frames).score ≤ 100 := by
  unfold analyzeCameraMotion
  split_ifs <;> dsimp only <;> try norm_num
  all_goals simp only [minCameraMotion] at *
  all_goals linarith

/-- The frame-overlap check score is in [0, 100]. -/
theorem frameOverlap_score_bounds {α : Type} [Inhabited α] (motion : α → α → ℚ)
    (frames : List α) :
    0 ≤ (analyzeFrameOverlap motion frames).score ∧
    (analyzeFrameOverlap motion frames).score ≤ 100 := by
  unfold analyzeFrameOverlap
  split_ifs <;> dsimp only <;> norm_num

/-- The exposure-consistency check score is in [0, 100]. -/
theorem exposure_score_bounds (kf : List Keyframe) :
    0 ≤ (analyzeExposureConsistency kf).score ∧
    (analyzeExposureConsistency kf).score ≤ 100 := by
  unfold analyzeExposureConsistency
  split_ifs <;> dsimp only <;> try norm_num
  all_goals simp only [maxExposureVariance] at *
  all_goals linarith

/-- The reflective-surfaces check score is in [0, 100]. -/
theorem reflective_score_bounds {α : Type} (highlight : α → ℚ) (frames : List α) :
    0 ≤ (analyzeReflectiveSurfaces highlight frames).score ∧
    (analyzeReflectiveSurfaces highlight frames).score ≤ 100 := by
  unfold analyzeReflectiveSurfaces
  split_ifs <;> dsimp only <;> norm_num

/-- The scene-staticness check score is in [0, 100]. -/
theorem staticness_score_bounds {α : Type} [Inhabited α] (change : α → α → ℚ)
    (frames : List α) :
    0 ≤ (analyzeSceneStaticness change frames).score ∧
    (analyzeSceneStaticness change frames).score ≤ 100 := by
  unfold analyzeSceneStaticness
  split_ifs <;> dsimp only <;> norm_num

/-- The feature-density check score is in [0, 100]. -/
theorem featureDensity_score_bounds {α : Type} (features : α → ℚ) (frames : List α) :
    0 ≤ (analyzeFeatureDensity features frames).score ∧
    (analyzeFeatureDensity features frames).score ≤ 100 := by
  unfold analyzeFeatureDensity
  split_ifs <;> dsimp only <;> try norm_num
  all_goals simp only [minFeatureCount] at *
  all_goals linarith

/-- The basic score is in [0, 100]. -/
theorem basicScore_bounds (kf : List Keyframe) (fc : ℚ) :
    0 ≤ basicScore kf fc ∧ basicScore kf fc ≤ 100 := by
  obtain ⟨b1, b2⟩ := analyzeBrightness_bounds kf
  obtain ⟨l1, l2⟩ := analyzeMotionBlur_bounds kf
  obtain ⟨f1, f2⟩ := analyzeFrameCount_bounds fc
  obtain ⟨c1, c2⟩ := analyzeConsistency_bounds kf
  unfold basicScore basicFromSubscores wBrightness wBlur wFrames wConsistency
  constructor
  · apply jsRound_nonneg
    linarith
  · apply jsRound_le_of_le
    push_cast
    linarith

/-- The suitability score is in [0, 100]. -/
theorem splattingScore_bounds {α : Type} [Inhabited α] (motion change : α → α → ℚ)
    (highlight features : α → ℚ) (kf : List Keyframe) (fp : List α) :
    0 ≤ splattingScore (analyzeSplatting motion change highlight features kf fp) ∧
    splattingScore (analyzeSplatting motion change highlight features kf fp) ≤ 100 := by
  obtain ⟨a1, a2⟩ := cameraMotion_score_bounds motion fp
  obtain ⟨o1, o2⟩ := frameOverlap_score_bounds motion fp
  obtain ⟨e1, e2⟩ := exposure_score_bounds kf
  obtain ⟨r1, r2⟩ := reflective_score_bounds highlight fp
  obtain ⟨t1, t2⟩ := staticness_score_bounds change fp
  obtain ⟨d1, d2⟩ := featureDensity_score_bounds features fp
  unfold splattingScore analyzeSplatting wCameraMotion wFrameOverlap wExposure wReflective
    wStaticness wFeatureDensity
  dsimp only
  constructor
  · apply jsRound_nonneg
    linarith
  · apply jsRound_le_of_le
    push_cast
    linarith

/-- The blended overall score is in [0, 100]. -/
theorem phase1Overall_bounds {α : Type} [Inhabited α] (motion change : α → α → ℚ)
    (highlight features : α → ℚ) (kf : List Keyframe) (fp : List α) (fc : ℚ) :
    0 ≤ phase1Overall motion change highlight features kf fp fc ∧
    phase1Overall motion change highlight features kf fp fc ≤ 100 := by
  obtain ⟨b1, b2⟩ := basicScore_bounds kf fc
  obtain ⟨s1, s2⟩ := splattingScore_bounds motion change highlight features kf fp
  have hb1 : (0 : ℚ) ≤ (basicScore kf fc : ℚ) := by exact_mod_cast b1
  have hb2 : ((basicScore kf fc : ℤ) : ℚ) ≤ 100 := by exact_mod_cast b2
  have hs1 : (0 : ℚ) ≤
      ((splattingScore (analyzeSplatting motion change highlight features kf fp) : ℤ) : ℚ) := by
    exact_mod_cast s1
  have hs2 : ((splattingScore (analyzeSplatting motion change highlight features kf fp) : ℤ) : ℚ)
      ≤ 100 := by
    exact_mod_cast s2
  unfold phase1Overall overallScore wBasic wSplat
  constructor
  · apply jsRound_nonneg
    linarith
  · apply jsRound_le_of_le
    push_cast
    push_cast at hb2 hs2
    linarith

/-- C6: every score the system produces — the four basic sub-scores, the
six suitability check scores, the basic score, the suitability score and
the blended overall score — lies in [0, 100] for every input, and each
weighted combination's weights sum to 1. -/
theorem C6_scores_in_range_weights_sum_one :
    (∀ kf : List Keyframe, 0 ≤ analyzeBrightness kf ∧ analyzeBrightness kf ≤ 100) ∧
    (∀ kf : List Keyframe, 0 ≤ analyzeMotionBlur kf ∧ analyzeMotionBlur kf ≤ 100) ∧
    (∀ fc : ℚ, 0 ≤ analyzeFrameCount fc ∧ analyzeFrameCount fc ≤ 100) ∧
    (∀ kf : List Keyframe, 0 ≤ analyzeConsistency kf ∧ analyzeConsistency kf ≤ 100) ∧
    (∀ {α : Type} [Inhabited α] (motion : α → α → ℚ) (frames : List α),
      0 ≤ (analyzeCameraMotion motion frames).score ∧
        (analyzeCameraMotion motion frames).score ≤ 100) ∧
    (∀ {α : Type} [Inhabited α] (motion : α → α → ℚ) (frames : List α),
      0 ≤ (analyzeFrameOverlap motion frames).score ∧
        (analyzeFrameOverlap motion frames).score ≤ 100) ∧
    (∀ kf : List Keyframe, 0 ≤ (analyzeExposureConsistency kf).score ∧
      (analyzeExposureConsistency kf).score ≤ 100) ∧
    (∀ {α : Type} (highlight : α → ℚ) (frames : List α),
      0 ≤ (analyzeReflectiveSurfaces highlight frames).score ∧
        (analyzeReflectiveSurfaces highlight frames).score ≤ 100) ∧
    (∀ {α : Type} [Inhabited α] (change : α → α → ℚ) (frames : List α),
      0 ≤ (analyzeSceneStaticness change frames).score ∧
        (analyzeSceneStaticness change frames).score ≤ 100) ∧
    (∀ {α : Type} (features : α → ℚ) (frames : List α),
      0 ≤ (analyzeFeatureDensity features frames).score ∧
        (analyzeFeatureDensity features frames).score ≤ 100) ∧
    (∀ (kf : List Keyframe) (fc : ℚ), 0 ≤ basicScore kf fc ∧ basicScore kf fc ≤ 100) ∧
    (∀ {α : Type} [Inhabited α] (motion change : α → α → ℚ) (highlight features : α → ℚ)
      (kf : List Keyframe) (fp : List α),
      0 ≤ splattingScore (analyzeSplatting motion change highlight features kf fp) ∧
        splattingScore (analyzeSplatting motion change highlight features kf fp) ≤ 100) ∧
    (∀ {α : Type} [Inhabited α] (motion change : α → α → ℚ) (highlight features : α → ℚ)
      (kf : List Keyframe) (fp : List α) (fc : ℚ),
      0 ≤ phase1Overall motion change highlight features kf fp fc ∧
        phase1Overall motion change highlight features kf fp fc ≤ 100) ∧
    wBrightness + wBlur + wFrames + wConsistency = 1 ∧
    wCameraMotion + wFrameOverlap + wExposure + wReflective + wStaticness
      + wFeatureDensity = 1 ∧
    wBasic + wSplat = 1 := by
  refine ⟨analyzeBrightness_bounds, analyzeMotionBlur_bounds, analyzeFrameCount_bounds,
    analyzeConsistency_bounds, ?_, ?_, exposure_score_bounds, ?_, ?_, ?_,
    basicScore_bounds, ?_, ?_,
    by norm_num [wBrightness, wBlur, wFrames, wConsistency],
    by norm_num [wCameraMotion, wFrameOverlap, wExposure, wReflective, wStaticness,
      wFeatureDensity],
    by norm_num [wBasic, wSplat]⟩
  · exact fun {α} [Inhabited α] motion frames => cameraMotion_score_bounds motion frames
  · exact fun {α} [Inhabited α] motion frames => frameOverlap_score_bounds motion frames
  · exact fun {α} highlight frames => reflective_score_bounds highlight frames
  · exact fun {α} [Inhabited α] change frames => staticness_score_bounds change frames
  · exact fun {α} features frames => featureDensity_score_bounds features frames
  · exact fun {α} [Inhabited α] motion change highlight features kf fp =>
      splattingScore_bounds motion change highlight features kf fp
  · exact fun {α} [Inhabited α] motion change highlight features kf fp fc =>
      phase1Overall_bounds motion change highlight features kf fp fc

/-- C8: the overall score is monotone non-decreasing in each of the four
basic sub-scores and in the suitability score, all others held fixed. -/
theorem C8_overall_monotone :
    (∀ b b' bl f c s : ℚ, b ≤ b' →
      overallScore (basicFromSubscores b bl f c) s ≤
        overallScore (basicFromSubscores b' bl f c) s) ∧
    (∀ b bl bl' f c s : ℚ, bl ≤ bl' →
      overallScore (basicFromSubscores b bl f c) s ≤
        overallScore (basicFromSubscores b bl' f c) s) ∧
    (∀ b bl f f' c s : ℚ, f ≤ f' →
      overallScore (basicFromSubscores b bl f c) s ≤
        overallScore (basicFromSubscores b bl f' c) s) ∧
    (∀ b bl f c c' s : ℚ, c ≤ c' →
      overallScore (basicFromSubscores b bl f c) s ≤
        overallScore (basicFromSubscores b bl f c') s) ∧
    (∀ b bl f c s s' : ℚ, s ≤ s' →
      overallScore (basicFromSubscores b bl f c) s ≤
        overallScore (basicFromSubscores b bl f c) s') := by
  have hblend : ∀ p q : ℤ, p ≤ q → ∀ s : ℚ,
      overallScore p s ≤ overallScore q s := by
    intro p q h s
    unfold overallScore wBasic wSplat
    apply jsRound_mono
    have hpq : (p : ℚ) ≤ q := by exact_mod_cast h
    linarith
  refine ⟨?_, ?_, ?_, ?_, ?_⟩
  · intro b b' bl f c s h
    apply hblend
    unfold basicFromSubscores wBrightness wBlur wFrames wConsistency
    apply jsRound_mono
    linarith
  · intro b bl bl' f c s h
    apply hblend
    unfold basicFromSubscores wBrightness wBlur wFrames wConsistency
    apply jsRound_mono
    linarith
  · intro b bl f f' c s h
    apply hblend
    unfold basicFromSubscores wBrightness wBlur wFrames wConsistency
    apply jsRound_mono
    linarith
  · intro b bl f c c' s h
    apply hblend
    unfold basicFromSubscores wBrightness wBlur wFrames wConsistency
    apply jsRound_mono
    linarith
  · intro b bl f c s s' h
    unfold overallScore wBasic wSplat
    apply jsRound_mono
    linarith

/-- C8 witness: raising the brightness sub-score from 50 to 60 does not
lower the overall score. -/
theorem C8_overall_monotone_witness :
    overallScore (basicFromSubscores 50 50 50 50) 50 ≤
      overallScore (basicFromSubscores 60 50 50 50) 50 :=
  C8_overall_monotone.1 50 60 50 50 50 50 (by norm_num)

/-- C9: the recommendation's issue list is exactly the issue-carrying
checks sorted by the fixed priority order (feature density, camera
motion, reflective surfaces, frame overlap, scene staticness, exposure
consistency), the user-facing tips are the recommendations of the first
3, and with no issue the status is optimal and the tips are empty. -/
theorem C9_recommendation_priority (r : SplatResults) (overall : ℚ) :
    sortedIssues r = specPriorityIssues r ∧
    (generateRecommendation r overall).tips =
      ((specPriorityIssues r).take 3).map (·.recommendation) ∧
    ((∀ e ∈ entriesOf r, e.2.issue = none) →
      (generateRecommendation r overall).status = "optimal" ∧
      (generateRecommendation r overall).tips = []) := by
  obtain ⟨⟨s1, i1, d1⟩, ⟨s2, i2, d2⟩, ⟨s3, i3, d3⟩, ⟨s4, i4, d4⟩, ⟨s5, i5, d5⟩,
    ⟨s6, i6, d6⟩⟩ := r
  refine ⟨?_, ?_, ?_⟩
  · cases i1 <;> cases i2 <;> cases i3 <;> cases i4 <;> cases i5 <;> cases i6 <;> rfl
  · cases i1 <;> cases i2 <;> cases i3 <;> cases i4 <;> cases i5 <;> cases i6 <;> rfl
  · intro hall
    have h1 : i1 = none := hall (.cameraMotion, ⟨s1, i1, d1⟩) (by simp [entriesOf])
    have h2 : i2 = none := hall (.frameOverlap, ⟨s2, i2, d2⟩) (by simp [entriesOf])
    have h3 : i3 = none := hall (.exposureConsistency, ⟨s3, i3, d3⟩) (by simp [entriesOf])
    have h4 : i4 = none := hall (.reflectiveSurfaces, ⟨s4, i4, d4⟩) (by simp [entriesOf])
    have h5 : i5 = none := hall (.sceneStaticness, ⟨s5, i5, d5⟩) (by simp [entriesOf])
    have h6 : i6 = none := hall (.featureDensity, ⟨s6, i6, d6⟩) (by simp [entriesOf])
    subst h1 h2 h3 h4 h5 h6
    exact ⟨rfl, rfl⟩

/-- C9 witness: a result set with no issues gives status optimal and no
tips. -/
theorem C9_recommendation_priority_witness :
    (generateRecommendation ⟨⟨90, none, emptyDetails⟩, ⟨85, none, emptyDetails⟩,
      ⟨95, none, emptyDetails⟩, ⟨90, none, emptyDetails⟩, ⟨90, none, emptyDetails⟩,
      ⟨80, none, emptyDetails⟩⟩ 80).status = "optimal" ∧
    (generateRecommendation ⟨⟨90, none, emptyDetails⟩, ⟨85, none, emptyDetails⟩,
      ⟨95, none, emptyDetails⟩, ⟨90, none, emptyDetails⟩, ⟨90, none, emptyDetails⟩,
      ⟨80, none, emptyDetails⟩⟩ 80).tips = [] :=
  (C9_recommendation_priority ⟨⟨90, none, emptyDetails⟩, ⟨85, none, emptyDetails⟩,
    ⟨95, none, emptyDetails⟩, ⟨90, none, emptyDetails⟩, ⟨90, none, emptyDetails⟩,
    ⟨80, none, emptyDetails⟩⟩ 80).2.2 (by simp [entriesOf, emptyDetails])

/-- C10: with too few frames the suitability checks return fixed
insufficient-data scores instead of failing, and the defaults differ:
camera motion and frame overlap return 0 for fewer than 2 frames, while
exposure consistency and scene staticness return 50 (not 0) for fewer
than 3 frames. -/
theorem C10_insufficient_data_defaults :
    (∀ {α : Type} [Inhabited α] (motion : α → α → ℚ) (frames : List α),
      frames.length < 2 →
      (analyzeCameraMotion motion frames).score = 0 ∧
      (analyzeFrameOverlap motion frames).score = 0) ∧
    (∀ kf : List Keyframe, kf.length < 3 →
      (analyzeExposureConsistency kf).score = 50 ∧
      (analyzeExposureConsistency kf).score ≠ 0) ∧
    (∀ {α : Type} [Inhabited α] (change : α → α → ℚ) (frames : List α),
      frames.length < 3 →
      (analyzeSceneStaticness change frames).score = 50 ∧
      (analyzeSceneStaticness change frames).score ≠ 0) := by
  refine ⟨?_, ?_, ?_⟩
  · intro α _ motion frames hlen
    constructor
    · unfold analyzeCameraMotion
      rw [if_pos hlen]
    · unfold analyzeFrameOverlap
      rw [if_pos hlen]
  · intro kf hlen
    unfold analyzeExposureConsistency
    rw [if_pos hlen]
    norm_num
  · intro α _ change frames hlen
    unfold analyzeSceneStaticness
    rw [if_pos hlen]
    norm_num

/-- C10 witness: a 1-frame video scores 0 on camera motion and overlap; a
2-frame video scores a nonzero 50 on exposure consistency and scene
staticness. -/
theorem C10_insufficient_data_defaults_witness :
    (analyzeCameraMotion (fun _ _ : ℕ => (1 : ℚ)) [5]).score = 0 ∧
    (analyzeFrameOverlap (fun _ _ : ℕ => (1 : ℚ)) [5]).score = 0 ∧
    (analyzeExposureConsistency [⟨120, 10⟩, ⟨130, 10⟩]).score = 50 ∧
    (analyzeExposureConsistency [⟨120, 10⟩, ⟨130, 10⟩]).score ≠ 0 ∧
    (analyzeSceneStaticness (fun _ _ : ℕ => (1 : ℚ)) [5, 6]).score = 50 ∧
    (analyzeSceneStaticness (fun _ _ : ℕ => (1 : ℚ)) [5, 6]).score ≠ 0 := by
  obtain ⟨hcm, hov⟩ := C10_insufficient_data_defaults.1 (fun _ _ : ℕ => (1 : ℚ)) [5]
    (by decide)
  obtain ⟨hex, hex0⟩ := C10_insufficient_data_defaults.2.1 [⟨120, 10⟩, ⟨130, 10⟩] (by decide)
  obtain ⟨hst, hst0⟩ := C10_insufficient_data_defaults.2.2 (fun _ _ : ℕ => (1 : ℚ)) [5, 6]
    (by decide)
  exact ⟨hcm, hov, hex, hex0, hst, hst0⟩

/-- C1: with the default quality threshold 70 the orchestrator proceeds to
downstream reconstruction iff the overall score is at least 70; a score of
69 fails fast and a score of exactly 70 proceeds. -/
theorem C1_quality_gate_threshold :
    (∀ score : ℚ, processDecision score = GateDecision.proceed ↔ 70 ≤ score) ∧
    processDecision 69 = GateDecision.failFast ∧
    processDecision 70 = GateDecision.proceed := by
  refine ⟨fun score => ?_, by norm_num [processDecision, qualityThreshold],
    by norm_num [processDecision, qualityThreshold]⟩
  unfold processDecision qualityThreshold
  split
  · simpa using by linarith [show score < 70 from by assumption]
  · simpa using le_of_not_lt (by assumption)

/-- C1 witness: the gate theorem applied at score 70. -/
theorem C1_quality_gate_threshold_witness :
    processDecision 70 = GateDecision.proceed :=
  (C1_quality_gate_threshold.1 70).mpr (by norm_num)

end Servionics
